import Mathlib

/-!
Verification of the artifact selection / download wrapper
(`src/artifactory_api.py`, class `Artifactory`).

The embedding is shallow: the listing produced by `list(self.client)` is a
`List ArtifactEntry`; an entry's `stat().mime_type` and the bytes produced by
`open()/read()` are the `mime_type` and `content` fields; Python exceptions
become the `PyError` inductive, with `unboundLocal` standing for the
`UnboundLocalError` raised when a local variable is read before assignment;
the local filesystem is a partial map from paths to byte lists.
-/

namespace ArtifactoryApi

/-- An item yielded by enumerating the repository listing.  `name` is the
entry name, `mime_type` models the result of `stat().mime_type`, and
`content` models the bytes returned by reading the stream from `open()`. -/
structure ArtifactEntry where
  name : String
  mime_type : String
  content : List Nat
deriving DecidableEq

/-- Python exceptions observable from this module: the explicit
`Exception("Artifact {0} not found.")` raised by `get_by_name`, and the
`UnboundLocalError` that a read of an unassigned local raises. -/
inductive PyError where
  | notFound (msg : String)
  | unboundLocal (varName : String)
deriving DecidableEq

/-- Class attribute `TMP_DIR = "/tmp"` (line 52). -/
def TMP_DIR : String := "/tmp"

/-- Default value of the `mime_type` parameter of `get_latest` (line 138). -/
def default_mime_type : String := "application/java-archive"

/-- Lines 128-136: iterate over `reversed(list(self.client))`, `break` on the
first entry whose `name` equals `artifact_name`; the `for ... else` clause
raises `Exception("Artifact {0} not found.")` when the loop never breaks. -/
def get_by_name (listing : List ArtifactEntry) (artifact_name : String) :
    Except PyError ArtifactEntry :=
  match listing.reverse.find? (fun artifact => artifact.name == artifact_name) with
  | some matched_artifact => Except.ok matched_artifact
  | none => Except.error (PyError.notFound
      (("Artifact ") ++ artifact_name ++ (" not found.")))

/-- Lines 152-158: iterate over `reversed(list(self.client))`, `break` on the
first entry whose `stat().mime_type` equals `mime_type`.  There is no `else`
clause: when the loop never breaks, the local `latest_artifact` is unassigned
and the following `self.log.info(...  latest_artifact.name)` raises
`UnboundLocalError` -- modelled by the `unboundLocal` error value. -/
def get_latest (listing : List ArtifactEntry) (mime_type : String) :
    Except PyError ArtifactEntry :=
  match listing.reverse.find? (fun artifact => artifact.mime_type == mime_type) with
  | some latest_artifact => Except.ok latest_artifact
  | none => Except.error (PyError.unboundLocal ("latest_artifact"))

/-- The local filesystem: a map from path strings to file contents. -/
structure FS where
  files : String → Option (List Nat)

/-- Opening a path for binary writing and writing `content` replaces whatever
was stored at that path. -/
def FS.write (fs : FS) (p : String) (content : List Nat) : FS :=
  FS.mk (fun q => if q = p then some content else fs.files q)

/-- First character of a string is a slash (`b.startswith('/')`). -/
def startsWithSlash (s : String) : Bool :=
  match s.data with
  | [] => false
  | c :: _ => c = '/'

/-- Last character of a string is a slash (`a.endswith('/')`). -/
def endsWithSlash (s : String) : Bool :=
  match s.data.getLast? with
  | none => false
  | some c => c = '/'

/-- `os.path.join(a, b)` for POSIX paths and two arguments: an absolute `b`
replaces `a`; otherwise a separator is inserted unless `a` is empty or already
ends in one. -/
def os_path_join (a b : String) : String :=
  if startsWithSlash b then b
  else if a = ("") ∨ endsWithSlash a then a ++ b
  else a ++ ("/") ++ b

/-- Lines 97-100 of `download`: Python truthiness of `artifact_name` (a string
is truthy iff non-empty) chooses between `get_by_name` and `get_latest` with
the default MIME type. -/
def select (listing : List ArtifactEntry) (artifact_name : String) :
    Except PyError ArtifactEntry :=
  if artifact_name ≠ ("") then get_by_name listing artifact_name
  else get_latest listing default_mime_type

/-- Lines 84-112: select the artifact, default the directory to `TMP_DIR`
when `path` is falsy, join it with the entry name, copy the stream contents
into that destination, and return the selected entry. -/
def download (listing : List ArtifactEntry) (fs : FS) (artifact_name path : String) :
    Except PyError (ArtifactEntry × FS) :=
  match select listing artifact_name with
  | Except.error e => Except.error e
  | Except.ok artifact =>
    let path2 := if path ≠ ("") then path else TMP_DIR
    let artifactory_path := os_path_join path2 artifact.name
    Except.ok (artifact, fs.write artifactory_path artifact.content)

/-- `download()` called with no arguments: both parameters take their
declared defaults `""` (line 84). -/
def download_noargs (listing : List ArtifactEntry) (fs : FS) :
    Except PyError (ArtifactEntry × FS) :=
  download listing fs ("") ("")

/-- The selector instance: the seven string fields assigned in `__init__`
(lines 72-78) plus the client created once at construction (line 81),
represented by the listing it enumerates. -/
structure Artifactory where
  url : String
  repo : String
  group : String
  artifact : String
  version : String
  username : String
  password : String
  client : List ArtifactEntry

/-- A piece of the format template of `_construct_url`: literal text or a
`{key}` placeholder. -/
inductive TmplPiece where
  | lit (s : String)
  | field (key : String)

/-- Render a format template left to right, substituting each placeholder via
`lookup`. -/
def render (lookup : String → String) : List TmplPiece → String
  | [] => ("")
  | piece :: rest =>
    (match piece with
     | TmplPiece.lit s => s
     | TmplPiece.field key => lookup key) ++ render lookup rest

/-- The template string of line 168, split into literals and placeholders. -/
def url_template : List TmplPiece :=
  [TmplPiece.field ("url"), TmplPiece.lit ("/artifactory/"),
   TmplPiece.field ("repo"), TmplPiece.lit ("/"),
   TmplPiece.field ("group"), TmplPiece.lit ("/"),
   TmplPiece.field ("artifact"), TmplPiece.lit ("/"),
   TmplPiece.field ("version")]

/-- The keyword dictionary passed to `.format` in lines 168-174. -/
def format_map (self : Artifactory) (key : String) : String :=
  if key = ("url") then self.url
  else if key = ("repo") then self.repo
  else if key = ("group") then self.group
  else if key = ("artifact") then self.artifact
  else if key = ("version") then self.version
  else ("")

/-- Lines 160-176: `_construct_url` renders the fixed template with the
instance fields. -/
def construct_url (self : Artifactory) : String :=
  render (format_map self) url_template

/-- Lines 54-82: `__init__` stores the seven arguments and then creates the
client from the constructed URL and the credential pair.  `ArtifactoryPath`
is the external library constructor, abstracted as a function from URL and
credentials to the listing the client will enumerate. -/
def init (ArtifactoryPath : String → String × String → List ArtifactEntry)
    (url repo group artifact version username password : String) : Artifactory :=
  let pre : Artifactory :=
    { url := url, repo := repo, group := group, artifact := artifact,
      version := version, username := username, password := password, client := [] }
  { pre with client := ArtifactoryPath (construct_url pre) (username, password) }

/-- Method `get_by_name` as a state transformer on the instance: it reads
`self.client` and performs no assignment to any attribute. -/
def Artifactory.get_by_name_m (self : Artifactory) (artifact_name : String) :
    (Except PyError ArtifactEntry) × Artifactory :=
  (get_by_name self.client artifact_name, self)

/-- Method `get_latest` as a state transformer on the instance. -/
def Artifactory.get_latest_m (self : Artifactory) (mime_type : String) :
    (Except PyError ArtifactEntry) × Artifactory :=
  (get_latest self.client mime_type, self)

/-- Method `download` as a state transformer on the instance and the local
filesystem. -/
def Artifactory.download_m (self : Artifactory) (fs : FS) (artifact_name path : String) :
    (Except PyError (ArtifactEntry × FS)) × Artifactory :=
  (download self.client fs artifact_name path, self)

/-- Concrete fixture: an entry named `x` with a non-jar MIME type. -/
def e_x1 : ArtifactEntry := ArtifactEntry.mk ("x") ("text/plain") [1]

/-- Concrete fixture: a second entry also named `x`, of jar MIME type. -/
def e_x2 : ArtifactEntry := ArtifactEntry.mk ("x") ("application/java-archive") [2]

/-- Concrete fixture: an entry named `y` of jar MIME type. -/
def e_y : ArtifactEntry := ArtifactEntry.mk ("y") ("application/java-archive") [3]

/-- Concrete fixture listing with a duplicated name. -/
def listing_w : List ArtifactEntry := [e_x1, e_x2, e_y]

/-- Concrete fixture: an entry whose name is the empty string. -/
def e_noname : ArtifactEntry := ArtifactEntry.mk ("") ("application/java-archive") [7]

/-- An empty filesystem. -/
def fs_empty : FS := FS.mk (fun _ => none)

/-- The filesystem state after downloading `e_x2` into `/tmp/out`. -/
def fs_w7 : FS := FS.write fs_empty (os_path_join ("/tmp/out") (e_x2.name)) (e_x2.content)

/-- The filesystem state after downloading `e_noname` into the default
directory. -/
def fs_w9 : FS := FS.write fs_empty (os_path_join TMP_DIR (e_noname.name)) (e_noname.content)

/-- A `find?` hit is the first element satisfying the predicate: the list
splits at the hit and every earlier element fails the predicate. -/
theorem find?_eq_some_split {α : Type} (p : α → Bool) :
    ∀ (l : List α) (a : α), l.find? p = some a ↔
      ∃ l₁ l₂, l = l₁ ++ a :: l₂ ∧ p a = true ∧ ∀ b ∈ l₁, p b = false := by
  intro l
  induction l with
  | nil => intro a; simp
  | cons x xs ih =>
    intro a
    cases hx : p x with
    | true =>
      rw [List.find?_cons_of_pos xs hx]
      constructor
      · intro h
        injection h with h
        subst h
        exact ⟨[], xs, rfl, hx, by simp⟩
      · rintro ⟨l₁, l₂, heq, hpa, hall⟩
        cases l₁ with
        | nil =>
          injection heq with h1 h2
          rw [h1]
        | cons y ys =>
          injection heq with h1 h2
          have hy : p y = false := hall y (by simp)
          rw [← h1, hx] at hy
          cases hy
    | false =>
      rw [List.find?_cons_of_neg xs (by simp [hx])]
      rw [ih a]
      constructor
      · rintro ⟨l₁, l₂, heq, hpa, hall⟩
        refine ⟨x :: l₁, l₂, by rw [heq]; rfl, hpa, ?_⟩
        intro b hb
        rcases List.mem_cons.mp hb with h1 | h2
        · rw [h1]; exact hx
        · exact hall b h2
      · rintro ⟨l₁, l₂, heq, hpa, hall⟩
        cases l₁ with
        | nil =>
          injection heq with h1 h2
          rw [← h1] at hpa
          rw [hx] at hpa
          cases hpa
        | cons y ys =>
          injection heq with h1 h2
          exact ⟨ys, l₂, h2, hpa, fun b hb => hall b (List.mem_cons_of_mem y hb)⟩

/-- When some element of `l` satisfies `p`, scanning the reversal of `l` and
taking the first hit yields the element closest to the end of `l` that
satisfies `p`: `l` splits after the hit with no later element satisfying
`p`. -/
theorem reverse_find?_last_match {α : Type} (p : α → Bool) (l : List α)
    (h : ∃ e ∈ l, p e = true) :
    ∃ a l₁ l₂, l.reverse.find? p = some a ∧ p a = true ∧
      l = l₁ ++ a :: l₂ ∧ ∀ b ∈ l₂, p b = false := by
  obtain ⟨e, hel, hpe⟩ := h
  have hsome : (l.reverse.find? p).isSome :=
    List.find?_isSome.mpr ⟨e, List.mem_reverse.mpr hel, hpe⟩
  obtain ⟨a, ha⟩ := Option.isSome_iff_exists.mp hsome
  obtain ⟨m₁, m₂, hm, hpa, hall⟩ := (find?_eq_some_split p l.reverse a).mp ha
  refine ⟨a, m₂.reverse, m₁.reverse, ha, hpa, ?_, ?_⟩
  · have h2 : l = (m₁ ++ a :: m₂).reverse := by
      rw [← hm, List.reverse_reverse]
    rw [h2]
    simp
  · intro b hb
    exact hall b (List.mem_reverse.mp hb)

/-- A successful `get_by_name` returns an entry bearing the requested
name. -/
theorem get_by_name_ok_name {l : List ArtifactEntry} {n : String} {a : ArtifactEntry}
    (h : get_by_name l n = Except.ok a) : a.name = n := by
  unfold get_by_name at h
  cases hf : l.reverse.find? (fun artifact => artifact.name == n) with
  | none => rw [hf] at h; cases h
  | some b =>
    rw [hf] at h
    injection h with h
    subst h
    have := List.find?_some hf
    simpa using this

/-- A successful `download` selected its entry via `select`, and its final
filesystem is the input filesystem with the entry content written at the
joined destination path. -/
theorem download_ok_select {l : List ArtifactEntry} {fs : FS} {n p : String}
    {a : ArtifactEntry} {fs' : FS}
    (h : download l fs n p = Except.ok (a, fs')) :
    select l n = Except.ok a ∧
      fs' = fs.write (os_path_join (if p ≠ ("") then p else TMP_DIR) a.name) a.content := by
  unfold download at h
  cases hs : select l n with
  | error e => rw [hs] at h; cases h
  | ok b =>
    rw [hs] at h
    simp only at h
    injection h with h
    injection h with h1 h2
    subst h1
    exact ⟨rfl, h2.symm⟩

/-- C1: the claim says that on a listing with no entry of the requested MIME
type `get_latest` raises an explicit NotFound-style error and that logging
the result does not fault.  The code disagrees: the loop in lines 152-155 has
no `else` clause, so on such a listing `latest_artifact` is never assigned
and the `log.info` call of line 157 itself raises `UnboundLocalError` -- an
undefined-value fault, distinct from every NotFound error.  This theorem
evaluates the code at a failing input (a listing whose only entry has MIME
type `text/plain`, queried with the default MIME type). -/
theorem get_latest_unbound_fault :
    get_latest [e_x1] default_mime_type
      = Except.error (PyError.unboundLocal ("latest_artifact")) ∧
    ∀ msg, (Except.error (PyError.unboundLocal ("latest_artifact")) :
        Except PyError ArtifactEntry) ≠ Except.error (PyError.notFound msg) := by
  constructor
  · rfl
  · intro msg h
    injection h with h
    cases h

/-- C2: on a listing containing an entry named `X`, `get_by_name X` returns
an entry named `X`, and it is the matching entry closest to the end of the
original listing order: the listing splits around the returned entry and no
entry after it is named `X`. -/
theorem get_by_name_returns_last_match (l : List ArtifactEntry) (X : String)
    (h : ∃ e ∈ l, e.name = X) :
    ∃ a l₁ l₂, get_by_name l X = Except.ok a ∧ a.name = X ∧
      l = l₁ ++ a :: l₂ ∧ ∀ b ∈ l₂, b.name ≠ X := by
  obtain ⟨e, hel, hnm⟩ := h
  obtain ⟨a, l₁, l₂, hfind, hpa, heq, hall⟩ :=
    reverse_find?_last_match (fun artifact => artifact.name == X) l
      ⟨e, hel, by simp [hnm]⟩
  refine ⟨a, l₁, l₂, ?_, by simpa using hpa, heq, ?_⟩
  · unfold get_by_name
    rw [hfind]
  · intro b hb
    simpa using hall b hb

/-- Witness for C2 at the fixture listing, whose first two entries are both
named `x`. -/
theorem get_by_name_returns_last_match_witness :
    (∃ e ∈ listing_w, e.name = ("x")) ∧
    (∃ a l₁ l₂, get_by_name listing_w ("x") = Except.ok a ∧ a.name = ("x") ∧
      listing_w = l₁ ++ a :: l₂ ∧ ∀ b ∈ l₂, b.name ≠ ("x")) :=
  ⟨⟨e_x1, by simp [listing_w], rfl⟩,
   get_by_name_returns_last_match listing_w ("x") ⟨e_x1, by simp [listing_w], rfl⟩⟩

/-- C3: on a listing with no entry of the requested name, `get_by_name`
raises the explicit NotFound exception whose message carries the requested
name (line 133). -/
theorem get_by_name_raises_not_found (l : List ArtifactEntry) (n : String)
    (h : ∀ e ∈ l, e.name ≠ n) :
    get_by_name l n = Except.error (PyError.notFound
      (("Artifact ") ++ n ++ (" not found."))) := by
  have hnone : l.reverse.find? (fun artifact => artifact.name == n) = none := by
    rw [List.find?_eq_none]
    intro x hx
    simpa using h x (List.mem_reverse.mp hx)
  unfold get_by_name
  rw [hnone]

/-- Witness for C3: no entry of the fixture listing is named `nope`. -/
theorem get_by_name_raises_not_found_witness :
    (∀ e ∈ listing_w, e.name ≠ ("nope")) ∧
    get_by_name listing_w ("nope") = Except.error (PyError.notFound
      (("Artifact ") ++ ("nope") ++ (" not found."))) :=
  ⟨by decide, get_by_name_raises_not_found listing_w ("nope") (by decide)⟩

/-- C4: on a listing containing an entry of MIME type `M`, `get_latest M`
returns an entry of MIME type `M`, and it is the matching entry closest to
the end of the original listing order. -/
theorem get_latest_returns_last_match (l : List ArtifactEntry) (M : String)
    (h : ∃ e ∈ l, e.mime_type = M) :
    ∃ a l₁ l₂, get_latest l M = Except.ok a ∧ a.mime_type = M ∧
      l = l₁ ++ a :: l₂ ∧ ∀ b ∈ l₂, b.mime_type ≠ M := by
  obtain ⟨e, hel, hnm⟩ := h
  obtain ⟨a, l₁, l₂, hfind, hpa, heq, hall⟩ :=
    reverse_find?_last_match (fun artifact => artifact.mime_type == M) l
      ⟨e, hel, by simp [hnm]⟩
  refine ⟨a, l₁, l₂, ?_, by simpa using hpa, heq, ?_⟩
  · unfold get_latest
    rw [hfind]
  · intro b hb
    simpa using hall b hb

/-- Witness for C4 at the fixture listing, whose last two entries both have
the jar MIME type. -/
theorem get_latest_returns_last_match_witness :
    (∃ e ∈ listing_w, e.mime_type = ("application/java-archive")) ∧
    (∃ a l₁ l₂, get_latest listing_w ("application/java-archive") = Except.ok a ∧
      a.mime_type = ("application/java-archive") ∧
      listing_w = l₁ ++ a :: l₂ ∧ ∀ b ∈ l₂, b.mime_type ≠ ("application/java-archive")) :=
  ⟨⟨e_y, by simp [listing_w], rfl⟩,
   get_latest_returns_last_match listing_w ("application/java-archive")
     ⟨e_y, by simp [listing_w], rfl⟩⟩

/-- C5: `download()` with no arguments is the same call as
`download(artifact_name="")`; with an empty name, selection is exactly
`get_latest` at the default MIME type `application/java-archive`, and with a
non-empty name, selection is exactly `get_by_name` at that name. -/
theorem download_dispatch (l : List ArtifactEntry) (fs : FS) (n : String) :
    download_noargs l fs = download l fs ("") ("") ∧
    select l ("") = get_latest l default_mime_type ∧
    (n ≠ ("") → select l n = get_by_name l n) := by
  refine ⟨rfl, ?_, ?_⟩
  · unfold select
    rw [if_neg]
    simp
  · intro hn
    unfold select
    rw [if_pos hn]

/-- Witness for C5 at the fixture listing with the non-empty name `x`. -/
theorem download_dispatch_witness :
    download_noargs listing_w fs_empty = download listing_w fs_empty ("") ("") ∧
    select listing_w ("") = get_latest listing_w default_mime_type ∧
    select listing_w ("x") = get_by_name listing_w ("x") :=
  ⟨(download_dispatch listing_w fs_empty ("x")).1,
   (download_dispatch listing_w fs_empty ("x")).2.1,
   (download_dispatch listing_w fs_empty ("x")).2.2 (by decide)⟩

/-- C6: the URL built at construction is exactly the plain interpolation
`url ++ "/artifactory/" ++ repo ++ "/" ++ group ++ "/" ++ artifact ++ "/" ++
version`, with no escaping and no trailing-slash handling; in particular the
documented concrete instance renders to `https://h/artifactory/r/g/a/v`. -/
theorem construct_url_is_interpolation (self : Artifactory) :
    construct_url self =
      self.url ++ ("/artifactory/") ++ self.repo ++ ("/") ++ self.group ++ ("/")
        ++ self.artifact ++ ("/") ++ self.version ∧
    construct_url (Artifactory.mk ("https://h") ("r") ("g") ("a") ("v") ("") ("") [])
      = ("https://h/artifactory/r/g/a/v") := by
  constructor
  · have hL : construct_url self =
        self.url ++ (("/artifactory/") ++ (self.repo ++ (("/") ++ (self.group ++
          (("/") ++ (self.artifact ++ (("/") ++ (self.version ++ (""))))))))) := rfl
    rw [hL]
    simp [String.append_assoc, String.append_empty]
  · rfl

/-- C7: a successful `download` writes at the join of the chosen directory
(`path`, defaulting to `/tmp` when empty) with the selected entry's name; the
file stored there afterwards is byte-identical to the entry's stream
contents, whatever was stored there before; and the call returns the
selected entry. -/
theorem download_writes_selected_content (l : List ArtifactEntry) (fs : FS)
    (n p : String) (a : ArtifactEntry) (fs' : FS)
    (h : download l fs n p = Except.ok (a, fs')) :
    select l n = Except.ok a ∧
    fs' = fs.write (os_path_join (if p ≠ ("") then p else TMP_DIR) a.name) a.content ∧
    (fs').files (os_path_join (if p ≠ ("") then p else TMP_DIR) a.name) = some a.content := by
  obtain ⟨h1, h2⟩ := download_ok_select h
  refine ⟨h1, h2, ?_⟩
  rw [h2]
  simp [FS.write]

/-- Witness for C7: downloading `x` from the fixture listing into
`/tmp/out`. -/
theorem download_writes_selected_content_witness :
    download listing_w fs_empty ("x") ("/tmp/out") = Except.ok (e_x2, fs_w7) ∧
    (select listing_w ("x") = Except.ok e_x2 ∧
     fs_w7 = fs_empty.write
       (os_path_join (if ("/tmp/out") ≠ ("") then ("/tmp/out") else TMP_DIR) e_x2.name)
       e_x2.content ∧
     fs_w7.files
       (os_path_join (if ("/tmp/out") ≠ ("") then ("/tmp/out") else TMP_DIR) e_x2.name)
       = some e_x2.content) :=
  ⟨rfl, download_writes_selected_content listing_w fs_empty ("x") ("/tmp/out")
    e_x2 fs_w7 rfl⟩

/-- C8: the seven fields assigned in `__init__` and the client created there
are never changed by `get_by_name`, `get_latest` or `download`: each method
returns the instance unchanged, every field still holds its constructor
argument, the client is still the one built from the constructed URL and the
credentials, and every listing call reads exactly that client. -/
theorem fields_never_mutated
    (AP : String → String × String → List ArtifactEntry)
    (url repo group artifact version username password n m p : String) (fs : FS) :
    let a := init AP url repo group artifact version username password
    (a.get_by_name_m n).2 = a ∧ (a.get_latest_m m).2 = a ∧ (a.download_m fs n p).2 = a ∧
    a.url = url ∧ a.repo = repo ∧ a.group = group ∧ a.artifact = artifact ∧
    a.version = version ∧ a.username = username ∧ a.password = password ∧
    a.client = AP (construct_url a) (username, password) ∧
    (a.get_by_name_m n).1 = get_by_name a.client n ∧
    (a.get_latest_m m).1 = get_latest a.client m ∧
    (a.download_m fs n p).1 = download a.client fs n p :=
  ⟨rfl, rfl, rfl, rfl, rfl, rfl, rfl, rfl, rfl, rfl, rfl, rfl, rfl, rfl⟩

/-- C9: `download` can never hand back an empty-named entry through the
by-name path: because line 97 tests the truthiness of `artifact_name`, a
successful download of an entry whose name is `""` can only have been called
with `artifact_name = ""` and can only have selected via `get_latest`. -/
theorem download_empty_name_only_via_latest (l : List ArtifactEntry) (fs : FS)
    (n p : String) (a : ArtifactEntry) (fs' : FS)
    (h : download l fs n p = Except.ok (a, fs')) (hname : a.name = ("")) :
    n = ("") ∧ get_latest l default_mime_type = Except.ok a := by
  obtain ⟨h1, _⟩ := download_ok_select h
  by_cases hn : n = ("")
  · subst hn
    unfold select at h1
    rw [if_neg (by simp)] at h1
    exact ⟨rfl, h1⟩
  · exfalso
    unfold select at h1
    rw [if_pos hn] at h1
    have hna := get_by_name_ok_name h1
    rw [hname] at hna
    exact hn hna.symm

/-- Witness for C9: a listing whose only entry has the empty name; the
no-argument download succeeds with it via `get_latest`. -/
theorem download_empty_name_only_via_latest_witness :
    download [e_noname] fs_empty ("") ("") = Except.ok (e_noname, fs_w9) ∧
    e_noname.name = ("") ∧
    (("" : String) = ("") ∧
      get_latest [e_noname] default_mime_type = Except.ok e_noname) :=
  ⟨rfl, rfl,
   download_empty_name_only_via_latest [e_noname] fs_empty ("") ("")
     e_noname fs_w9 rfl rfl⟩

/-- C10: with `repo`, `group`, `artifact` and `version` all left at their
empty-string defaults, the constructed URL is exactly
`url ++ "/artifactory////"`: every separator slash of the template is
inserted unconditionally, with no segment omitted or collapsed. -/
theorem construct_url_all_empty_defaults (url username password : String) :
    construct_url (Artifactory.mk url ("") ("") ("") ("") username password [])
      = url ++ ("/artifactory////") := rfl

end ArtifactoryApi
